import Mathlib

set_option maxRecDepth 100000

/-!
A verification development for the secure-file-flow repository.

The definitions below are a shallow embedding of the repository's core logic:

* `SecureFileFlow.Dispenser` embeds the `TicketDispenser` Durable Object
  (mass mode): its ticket map, the `/init`, `/claim` and `/ack` fetch
  branches, and the `sendBatchToSeller` helper.
* `SecureFileFlow.SingleMode` embeds the single-ticket worker routes
  (`claimTicket` over the in-memory `TICKET_STORE`), with the WebCrypto
  calls modelled as an explicit oracle whose steps may fail, mirroring the
  `try`/`catch` control flow.
* `SecureFileFlow.MassGateway` embeds the worker route `/api/mass/claim`
  (derive an AES-GCM key as SHA-256 of the ticket id, encrypt with a fresh
  12-byte IV, return the IV in the `X-IV` header) and the client-side
  decryption in `MassReceiverView.handleMassClaim`, with the hash and AEAD
  primitives as abstract parameters.

Machine integers in the source are JavaScript numbers used as millisecond
timestamps and small counters; they are modelled as `Nat` (no overflow is
reachable at these magnitudes, and `Date.now() - reservedAt > limit` agrees
with truncated `Nat` subtraction because a negative JS difference and a
truncated-to-zero difference both fail the `>` test).
-/

namespace SecureFileFlow

namespace Dispenser

/-- Ticket status, mirroring `"AVAILABLE" | "RESERVED" | "CLAIMED"` in the
`Ticket` interface of the Durable Object. -/
inductive TStatus where
  | AVAILABLE
  | RESERVED
  | CLAIMED
deriving DecidableEq, Repr

/-- A mass-mode ticket: `{ id, status, reservedAt? }`. -/
structure Ticket where
  id : String
  status : TStatus
  reservedAt : Option Nat
deriving DecidableEq, Repr

/-- Association list standing for the JS `Map<string, Ticket>`: lookup. -/
def mapGet : List (String × Ticket) → String → Option Ticket
  | [], _ => none
  | (k2, v) :: rest, k => if k2 = k then some v else mapGet rest k

/-- Association list standing for the JS `Map<string, Ticket>`: `set`.
JS `Map.set` replaces in place (keeping insertion order) when the key is
present and appends otherwise. -/
def mapSet : List (String × Ticket) → String → Ticket → List (String × Ticket)
  | [], k, v => [(k, v)]
  | (k2, v2) :: rest, k, v =>
      if k2 = k then (k, v) :: rest else (k2, v2) :: mapSet rest k v

/-- The mutable fields of the `TicketDispenser` Durable Object. -/
structure DOState where
  file : Option (List Nat)
  mimeType : String
  tickets : List (String × Ticket)
  maxConcurrentDownloads : Nat
  currentDownloads : Nat
deriving DecidableEq, Repr

/-- The Durable Object's field initializers: no file, mime type
`"application/octet-stream"`, empty ticket map, cap 50, zero downloads. -/
def initialState : DOState :=
  { file := none
    mimeType := "application/octet-stream"
    tickets := []
    maxConcurrentDownloads := 50
    currentDownloads := 0 }

/-- Result of the `/claim` fetch branch, as a tag (the HTTP layer renders
403 "Invalid Ticket", 410 "Ticket already used", the waiting-room HTML, or
the 200 file response with `X-Ticket-ID`). -/
inductive ReserveResult where
  | InvalidTicket
  | AlreadyClaimed
  | QueueFull
  | Granted
deriving DecidableEq, Repr

/-- The reservation timeout: `5 * 60 * 1000` milliseconds. -/
def reservationTimeoutMs : Nat := 5 * 60 * 1000

/-- The `/claim` branch of `TicketDispenser.fetch`, with `Date.now()`
passed in as `now`.  Mirrors the source order: unknown id check, CLAIMED
check, lazy expiry reset (`ticket.status = "AVAILABLE"` mutates the object
held by the map, so it is visible even on the waiting-room return), the
queue-gate check, then the grant (increment counter, RESERVED, stamp
`reservedAt`). -/
def reserveOp (s : DOState) (tid : String) (now : Nat) : ReserveResult × DOState :=
  if tid = "" then (.InvalidTicket, s)
  else
    match mapGet s.tickets tid with
    | none => (.InvalidTicket, s)
    | some t =>
      if t.status = .CLAIMED then (.AlreadyClaimed, s)
      else
        let t1 :=
          if t.status = .RESERVED ∧ now - t.reservedAt.getD 0 > reservationTimeoutMs
          then { t with status := .AVAILABLE } else t
        let s1 := { s with tickets := mapSet s.tickets tid t1 }
        if s1.currentDownloads ≥ s1.maxConcurrentDownloads then (.QueueFull, s1)
        else
          let t2 := { t1 with status := .RESERVED, reservedAt := some now }
          (.Granted,
            { s1 with
                currentDownloads := s1.currentDownloads + 1
                tickets := mapSet s1.tickets tid t2 })

/-- Result of the `/ack` fetch branch ("Burned" 200 or "Unknown" 400). -/
inductive AckResult where
  | Burned
  | Unknown
deriving DecidableEq, Repr

/-- The `/ack` branch of `TicketDispenser.fetch`: for any id present in the
map it sets the status to CLAIMED (the source performs no status check) and
decrements `currentDownloads` with `Math.max(0, x - 1)`, which is `Nat`
truncated subtraction. -/
def ackOp (s : DOState) (tid : String) : AckResult × DOState :=
  match mapGet s.tickets tid with
  | none => (.Unknown, s)
  | some t =>
      (.Burned,
        { s with
            tickets := mapSet s.tickets tid { t with status := .CLAIMED }
            currentDownloads := s.currentDownloads - 1 })

/-- The `/init` branch of `TicketDispenser.fetch`: store the new file and
mime type, clear the ticket map and insert one fresh AVAILABLE ticket per
generated id (the `crypto.randomUUID()` outputs are passed in as `ids`).
`currentDownloads` and `maxConcurrentDownloads` are not touched. -/
def initOp (s : DOState) (payload : List Nat) (mime : String) (ids : List String) : DOState :=
  { s with
      file := some payload
      mimeType := mime
      tickets :=
        ids.foldl (fun m id => mapSet m id { id := id, status := .AVAILABLE, reservedAt := none }) [] }

/-- `TicketDispenser.sendBatchToSeller`: the AVAILABLE tickets in map
order, truncated to 20 by `slice(0, 20)`, projected to their ids. -/
def sendBatchToSeller (s : DOState) : List String :=
  ((((s.tickets.map (fun p => p.2)).filter
      (fun t => decide (t.status = TStatus.AVAILABLE))).take 20).map (fun t => t.id))

/-- Number of tickets currently RESERVED (the quantity the spec says
`active_downloads` must equal). -/
def countReserved (s : DOState) : Nat :=
  (s.tickets.filter (fun p => decide (p.2.status = TStatus.RESERVED))).length

/-- One dispenser operation, for reasoning about operation sequences. -/
inductive Op where
  | initialise (payload : List Nat) (mime : String) (ids : List String)
  | reserve (tid : String) (now : Nat)
  | ack (tid : String)
deriving DecidableEq, Repr

/-- Whether an operation is a re-initialisation. -/
def Op.isInitOp : Op → Bool
  | .initialise _ _ _ => true
  | _ => false

/-- State transition of a single operation (response discarded). -/
def stepOp (s : DOState) : Op → DOState
  | .initialise p m ids => initOp s p m ids
  | .reserve tid now => (reserveOp s tid now).2
  | .ack tid => (ackOp s tid).2

/-- Run a sequence of dispenser operations. -/
def runOps (s : DOState) (ops : List Op) : DOState := ops.foldl stepOp s

/-- A concrete trace that fills the download gate: one ticket, re-reserved
50 times in quick succession (each non-expired re-reserve increments the
counter again, per the source). -/
def fullGateTrace : List Op :=
  Op.initialise [7] "image/png" ["a"] :: (List.range 50).map (fun i => Op.reserve "a" i)

/-- The dispenser state after `fullGateTrace`. -/
def fullGateState : DOState := runOps initialState fullGateTrace

/-- Twenty-one distinct ticket ids, for exercising the batch cap. -/
def sampleIds21 : List String := (List.range 21).map (fun i => toString i)

/-- A state whose single ticket has been reserved and acknowledged. -/
def claimedState : DOState :=
  runOps initialState [.initialise [7] "image/png" ["t"], .reserve "t" 0, .ack "t"]

/-- A state whose single ticket is RESERVED with `reservedAt = 0`. -/
def expiredState : DOState :=
  runOps initialState [.initialise [7] "image/png" ["t"], .reserve "t" 0]

/-- A state holding one old-session ticket, for re-init scenarios. -/
def stateWithOld : DOState := initOp initialState [1] "text/plain" ["old"]

end Dispenser

namespace SingleMode

/-- `TicketAsset` from the worker's `types.ts`: `{ content, mimeType }`,
with the `ArrayBuffer` content as a byte list. -/
structure TicketAsset where
  content : List Nat
  mimeType : String
deriving DecidableEq, Repr

/-- The in-memory `TICKET_STORE : Map<string, TicketAsset>` from
`store.ts`, as an association list. -/
abbrev TicketStore := List (String × TicketAsset)

/-- Lookup in the single-mode store (`TICKET_STORE.get`). -/
def storeGet : TicketStore → String → Option TicketAsset
  | [], _ => none
  | (k2, v) :: rest, k => if k2 = k then some v else storeGet rest k

/-- Removal from the single-mode store (`TICKET_STORE.delete`). -/
def storeDelete : TicketStore → String → TicketStore
  | [], _ => []
  | (k2, v) :: rest, k =>
      if k2 = k then storeDelete rest k else (k2, v) :: storeDelete rest k

/-- A parsed claim request body (`ClaimRequest` in `types.ts`).  The source
checks `!ticket_id || !public_key`; a missing field or an empty ticket
string is falsy, and a present `JsonWebKey` object is always truthy. -/
structure ClaimRequest where
  ticket_id : Option String
  public_key : Option String
deriving DecidableEq, Repr

/-- JS falsiness of the `ticket_id` string field. -/
def falsyTicketId : Option String → Bool
  | none => true
  | some s => s.isEmpty

/-- JS falsiness of the `public_key` JWK field. -/
def falsyPublicKey : Option String → Bool
  | none => true
  | some _ => false

/-- One invocation's view of the WebCrypto `crypto.subtle` calls made by
`claimTicket`, each of which may throw (modelled as `Except` with the
error message): `importKey` on the receiver's JWK, `generateKey` for the
ephemeral AES key, `getRandomValues` for the 12-byte IV, `encrypt`, and
`wrapKey`.  Randomness is captured by the oracle's fields. -/
structure SubtleCrypto where
  importKey : String → Except String String
  generateKey : Except String String
  randomIv : List Nat
  encrypt : String → List Nat → List Nat → Except String (List Nat)
  wrapKey : String → String → Except String (List Nat)

/-- The possible responses of the `claimTicket` route: 400 missing
parameters, 404 ticket invalid or expired, 500 encryption failed, or the
200 `HandoffBundle` JSON. -/
inductive ClaimResponse where
  | missingParams
  | notFound
  | encryptionFailed (msg : String)
  | bundle (encrypted_file : List Nat) (wrapped_key : List Nat)
      (iv : List Nat) (mime_type : String)
deriving DecidableEq, Repr

/-- Whether a response is a successful `HandoffBundle`. -/
def ClaimResponse.isBundle : ClaimResponse → Bool
  | .bundle _ _ _ _ => true
  | _ => false

/-- The `claimTicket` handler from the worker's api routes, over the store
it reads and writes.  The steps mirror the source: parameter check, store
lookup (404 on miss), then inside `try`: import the receiver's key,
generate the AES key, encrypt the content under the fresh IV, wrap the AES
key; any failure is caught and returned as a 500 with the store untouched;
on success the ticket is burned (`TICKET_STORE.delete`) and the bundle
returned. -/
def claimTicket (store : TicketStore) (req : ClaimRequest) (cr : SubtleCrypto) :
    ClaimResponse × TicketStore :=
  if falsyTicketId req.ticket_id || falsyPublicKey req.public_key then
    (.missingParams, store)
  else
    let tid := req.ticket_id.getD ""
    match storeGet store tid with
    | none => (.notFound, store)
    | some asset =>
      match cr.importKey (req.public_key.getD "") with
      | .error e => (.encryptionFailed e, store)
      | .ok userPublicKey =>
        match cr.generateKey with
        | .error e => (.encryptionFailed e, store)
        | .ok aesKey =>
          match cr.encrypt aesKey cr.randomIv asset.content with
          | .error e => (.encryptionFailed e, store)
          | .ok encryptedFile =>
            match cr.wrapKey aesKey userPublicKey with
            | .error e => (.encryptionFailed e, store)
            | .ok wrappedKey =>
              (.bundle encryptedFile wrappedKey cr.randomIv asset.mimeType,
                storeDelete store tid)

/-- One claim call: its request body and its crypto-oracle outcomes. -/
structure ClaimCall where
  req : ClaimRequest
  cr : SubtleCrypto

/-- The store after a sequence of claim calls. -/
def runClaims : TicketStore → List ClaimCall → TicketStore
  | s, [] => s
  | s, c :: rest => runClaims (claimTicket s c.req c.cr).2 rest

/-- A concrete one-ticket store. -/
def sampleStore : TicketStore :=
  [("t", { content := [1, 2, 3], mimeType := "text/plain" })]

/-- A crypto oracle whose every step succeeds. -/
def okCrypto : SubtleCrypto :=
  { importKey := fun _ => .ok "pub"
    generateKey := .ok "aes"
    randomIv := List.replicate 12 0
    encrypt := fun _ _ data => .ok data
    wrapKey := fun _ _ => .ok [9] }

/-- A crypto oracle whose `importKey` throws (malformed or wrong-algorithm
public key). -/
def keyErrorCrypto : SubtleCrypto :=
  { okCrypto with importKey := fun _ => .error "DataError" }

/-- A concrete well-formed claim request for ticket `"t"`. -/
def sampleReq : ClaimRequest := { ticket_id := some "t", public_key := some "jwk" }

end SingleMode

namespace MassGateway

open Dispenser

/-- UTF-8 bytes of a string (`new TextEncoder().encode(...)`). -/
def utf8Bytes (s : String) : List Nat :=
  s.toUTF8.toList.map (fun b => b.toNat)

/-- An authenticated symmetric cipher (AES-GCM in the source), abstract:
`encrypt key iv plaintext` and `decrypt key iv ciphertext`, the latter
failing (`Option`) on a bad tag. -/
structure AEAD where
  encrypt : List Nat → List Nat → List Nat → List Nat
  decrypt : List Nat → List Nat → List Nat → Option (List Nat)

/-- A successful `/api/mass/claim` response: the encrypted body, the
`X-IV` header bytes, and the `Content-Type` header. -/
structure MassClaimSuccess where
  body : List Nat
  xIV : List Nat
  contentType : String
deriving DecidableEq, Repr

/-- A `/api/mass/claim` response: either the Durable Object's non-file
response passed through unchanged (403 / 410 / waiting-room HTML), or the
encrypted file. -/
inductive GatewayResponse where
  | passthrough (r : ReserveResult)
  | encrypted (r : MassClaimSuccess)
deriving DecidableEq, Repr

/-- The worker route `app.get("/api/mass/claim")`: forward to the Durable
Object's `/claim`; when it grants (a 200 carrying `X-Ticket-ID`), derive
the key as SHA-256 of the UTF-8 ticket id, encrypt the returned file body
under a fresh 12-byte IV (`getRandomValues(new Uint8Array(12))`, passed in
as `iv`), and reply with the ciphertext, the base64 IV in `X-IV`, and the
Durable Object's `Content-Type`.  `sha256` and the AEAD are abstract
primitives. -/
def massClaimRoute (sha256 : List Nat → List Nat) (aead : AEAD) (iv : List Nat)
    (s : DOState) (tid : String) (now : Nat) : GatewayResponse × DOState :=
  match reserveOp s tid now with
  | (.Granted, s2) =>
      let fileBuffer := s2.file.getD []
      let keyHash := sha256 (utf8Bytes tid)
      let encryptedFile := aead.encrypt keyHash iv fileBuffer
      (.encrypted { body := encryptedFile, xIV := iv, contentType := s2.mimeType }, s2)
  | (r, s2) => (.passthrough r, s2)

/-- The decryption step of `MassReceiverView.handleMassClaim`: hash the
UTF-8 ticket id with SHA-256, import it as the raw AES-GCM key, and
decrypt the body with the IV taken from the `X-IV` header. -/
def handleMassClaimDecrypt (sha256 : List Nat → List Nat) (aead : AEAD)
    (tid : String) (r : MassClaimSuccess) : Option (List Nat) :=
  let keyHash := sha256 (utf8Bytes tid)
  aead.decrypt keyHash r.xIV r.body

/-- A degenerate but lawful cipher (identity), for witnessing theorems that
are parametric in the AEAD. -/
def idAead : AEAD := { encrypt := fun _ _ m => m, decrypt := fun _ _ c => some c }

/-- A degenerate 32-byte digest, for witnessing theorems that are
parametric in the hash. -/
def constHash : List Nat → List Nat := fun _ => List.replicate 32 0

/-- A concrete 12-byte IV. -/
def sampleIv : List Nat := List.replicate 12 0

end MassGateway

namespace Dispenser

/-! ### Basic lemmas about the ticket map -/

theorem mapGet_mapSet_self (m : List (String × Ticket)) (k : String) (v : Ticket) :
    mapGet (mapSet m k v) k = some v := by
  induction m with
  | nil => simp [mapGet, mapSet]
  | cons p rest ih =>
      obtain ⟨k2, v2⟩ := p
      by_cases h : k2 = k
      · simp [mapGet, mapSet, h]
      · simp [mapGet, mapSet, h, ih]

theorem mapGet_mapSet_ne (m : List (String × Ticket)) (k k2 : String) (v : Ticket)
    (h : k2 ≠ k) : mapGet (mapSet m k v) k2 = mapGet m k2 := by
  induction m with
  | nil => simp [mapGet, mapSet, Ne.symm h]
  | cons p rest ih =>
      obtain ⟨k3, v3⟩ := p
      by_cases h3 : k3 = k
      · subst h3
        simp [mapGet, mapSet, Ne.symm h]
      · by_cases h4 : k3 = k2 <;> simp [mapGet, mapSet, h3, h4, h, ih]

theorem mapSet_mapSet (m : List (String × Ticket)) (k : String) (v w : Ticket) :
    mapSet (mapSet m k v) k w = mapSet m k w := by
  induction m with
  | nil => simp [mapSet]
  | cons p rest ih =>
      obtain ⟨k2, v2⟩ := p
      by_cases h : k2 = k <;> simp [mapSet, h, ih]

/-! ### Case characterizations of the dispenser operations -/

theorem reserveOp_invalid_empty (s : DOState) (now : Nat) :
    reserveOp s "" now = (.InvalidTicket, s) := by
  simp [reserveOp]

theorem reserveOp_invalid_unknown (s : DOState) (tid : String) (now : Nat)
    (h0 : tid ≠ "") (h1 : mapGet s.tickets tid = none) :
    reserveOp s tid now = (.InvalidTicket, s) := by
  simp [reserveOp, h0, h1]

theorem reserveOp_already_claimed (s : DOState) (tid : String) (now : Nat) (t : Ticket)
    (h0 : tid ≠ "") (h1 : mapGet s.tickets tid = some t) (h2 : t.status = .CLAIMED) :
    reserveOp s tid now = (.AlreadyClaimed, s) := by
  simp [reserveOp, h0, h1, h2]

theorem reserveOp_queueFull_case (s : DOState) (tid : String) (now : Nat) (t : Ticket)
    (h0 : tid ≠ "") (h1 : mapGet s.tickets tid = some t) (h2 : t.status ≠ .CLAIMED)
    (h3 : s.currentDownloads ≥ s.maxConcurrentDownloads) :
    reserveOp s tid now =
      (.QueueFull,
        { s with
            tickets := mapSet s.tickets tid
              (if t.status = .RESERVED ∧ now - t.reservedAt.getD 0 > reservationTimeoutMs
               then { t with status := .AVAILABLE } else t) }) := by
  simp [reserveOp, h0, h1, h2, h3]

theorem reserveOp_granted_case (s : DOState) (tid : String) (now : Nat) (t : Ticket)
    (h0 : tid ≠ "") (h1 : mapGet s.tickets tid = some t) (h2 : t.status ≠ .CLAIMED)
    (h3 : s.currentDownloads < s.maxConcurrentDownloads) :
    reserveOp s tid now =
      (.Granted,
        { s with
            tickets := mapSet s.tickets tid
              { id := t.id, status := .RESERVED, reservedAt := some now }
            currentDownloads := s.currentDownloads + 1 }) := by
  have hle : ¬ s.currentDownloads ≥ s.maxConcurrentDownloads := Nat.not_le_of_lt h3
  by_cases hexp : t.status = TStatus.RESERVED ∧ now - t.reservedAt.getD 0 > reservationTimeoutMs <;>
    simp [reserveOp, h0, h1, h2, hle, hexp, mapSet_mapSet]

theorem ackOp_unknown (s : DOState) (tid : String)
    (h : mapGet s.tickets tid = none) : ackOp s tid = (.Unknown, s) := by
  simp [ackOp, h]

theorem ackOp_burned (s : DOState) (tid : String) (t : Ticket)
    (h : mapGet s.tickets tid = some t) :
    ackOp s tid =
      (.Burned,
        { s with
            tickets := mapSet s.tickets tid { t with status := .CLAIMED }
            currentDownloads := s.currentDownloads - 1 }) := by
  simp [ackOp, h]

/-! ### Counter lemmas for the dispenser operations -/

/-- `/claim` never touches the cap, and it either leaves the counter alone
or increments it after observing it strictly below the cap. -/
theorem reserveOp_counters (s : DOState) (tid : String) (now : Nat) :
    (reserveOp s tid now).2.maxConcurrentDownloads = s.maxConcurrentDownloads ∧
    ((reserveOp s tid now).2.currentDownloads = s.currentDownloads ∨
      (s.currentDownloads < s.maxConcurrentDownloads ∧
        (reserveOp s tid now).2.currentDownloads = s.currentDownloads + 1)) := by
  unfold reserveOp
  split
  · exact ⟨rfl, Or.inl rfl⟩
  · split
    · exact ⟨rfl, Or.inl rfl⟩
    · split
      · exact ⟨rfl, Or.inl rfl⟩
      · dsimp only
        split
        · exact ⟨rfl, Or.inl rfl⟩
        · rename_i hge
          exact ⟨rfl, Or.inr ⟨Nat.lt_of_not_ge hge, rfl⟩⟩

/-- `/ack` never touches the cap and never increases the counter. -/
theorem ackOp_counters (s : DOState) (tid : String) :
    (ackOp s tid).2.maxConcurrentDownloads = s.maxConcurrentDownloads ∧
    (ackOp s tid).2.currentDownloads ≤ s.currentDownloads := by
  unfold ackOp
  split
  · exact ⟨rfl, Nat.le_refl _⟩
  · exact ⟨rfl, Nat.sub_le _ _⟩

/-- `/init` touches neither counter. -/
theorem initOp_counters (s : DOState) (payload : List Nat) (mime : String)
    (ids : List String) :
    (initOp s payload mime ids).maxConcurrentDownloads = s.maxConcurrentDownloads ∧
    (initOp s payload mime ids).currentDownloads = s.currentDownloads :=
  ⟨rfl, rfl⟩

theorem stepOp_cap (s : DOState) (op : Op)
    (h : s.currentDownloads ≤ s.maxConcurrentDownloads) :
    (stepOp s op).currentDownloads ≤ (stepOp s op).maxConcurrentDownloads := by
  cases op with
  | initialise p m ids => exact h
  | reserve tid now =>
      obtain ⟨hmax, hcnt⟩ := reserveOp_counters s tid now
      simp only [stepOp]
      rcases hcnt with hsame | ⟨hlt, hsucc⟩ <;> omega
  | ack tid =>
      obtain ⟨hmax, hcnt⟩ := ackOp_counters s tid
      simp only [stepOp]
      omega

theorem runOps_cap (ops : List Op) (s : DOState)
    (h : s.currentDownloads ≤ s.maxConcurrentDownloads) :
    (runOps s ops).currentDownloads ≤ (runOps s ops).maxConcurrentDownloads := by
  induction ops generalizing s with
  | nil => exact h
  | cons op rest ih => exact ih (stepOp s op) (stepOp_cap s op h)

/-! ### A CLAIMED ticket survives reserve and ack operations -/

theorem claimed_preserved_step (s : DOState) (tid : String) (t : Ticket) (op : Op)
    (hget : mapGet s.tickets tid = some t) (hc : t.status = .CLAIMED)
    (hop : op.isInitOp = false) :
    ∃ u, mapGet (stepOp s op).tickets tid = some u ∧ u.status = .CLAIMED := by
  cases op with
  | initialise p m ids => simp [Op.isInitOp] at hop
  | reserve tid2 now =>
      by_cases h0 : tid2 = ""
      · subst h0
        exact ⟨t, by simp [stepOp, reserveOp_invalid_empty, hget], hc⟩
      · cases h1 : mapGet s.tickets tid2 with
        | none =>
            exact ⟨t, by simp [stepOp, reserveOp_invalid_unknown s tid2 now h0 h1, hget], hc⟩
        | some t3 =>
            by_cases hcl : t3.status = TStatus.CLAIMED
            · exact ⟨t,
                by simp [stepOp, reserveOp_already_claimed s tid2 now t3 h0 h1 hcl, hget], hc⟩
            · have hne : tid ≠ tid2 := by
                intro he
                subst he
                rw [hget] at h1
                exact hcl ((Option.some.inj h1) ▸ hc)
              by_cases hq : s.currentDownloads ≥ s.maxConcurrentDownloads
              · refine ⟨t, ?_, hc⟩
                simp [stepOp, reserveOp_queueFull_case s tid2 now t3 h0 h1 hcl hq,
                  mapGet_mapSet_ne _ _ _ _ hne, hget]
              · refine ⟨t, ?_, hc⟩
                simp [stepOp,
                  reserveOp_granted_case s tid2 now t3 h0 h1 hcl (Nat.lt_of_not_ge hq),
                  mapGet_mapSet_ne _ _ _ _ hne, hget]
  | ack tid2 =>
      cases h1 : mapGet s.tickets tid2 with
      | none => exact ⟨t, by simp [stepOp, ackOp_unknown s tid2 h1, hget], hc⟩
      | some t3 =>
          by_cases hne : tid = tid2
          · subst hne
            refine ⟨{ t3 with status := .CLAIMED }, ?_, rfl⟩
            simp [stepOp, ackOp_burned s tid t3 h1, mapGet_mapSet_self]
          · refine ⟨t, ?_, hc⟩
            simp [stepOp, ackOp_burned s tid2 t3 h1, mapGet_mapSet_ne _ _ _ _ hne, hget]

theorem runOps_claimed (ops : List Op) (s : DOState) (tid : String) (t : Ticket)
    (hget : mapGet s.tickets tid = some t) (hc : t.status = .CLAIMED)
    (hops : ∀ op ∈ ops, op.isInitOp = false) :
    ∃ u, mapGet (runOps s ops).tickets tid = some u ∧ u.status = .CLAIMED := by
  induction ops generalizing s t with
  | nil => exact ⟨t, hget, hc⟩
  | cons op rest ih =>
      obtain ⟨u, hu, huc⟩ :=
        claimed_preserved_step s tid t op hget hc (hops op (List.mem_cons_self op rest))
      exact ih (stepOp s op) u hu huc (fun o ho => hops o (List.mem_cons_of_mem op ho))

/-! ### Ticket-map shape after `/init` -/

theorem mapSet_append (m : List (String × Ticket)) (k : String) (v : Ticket)
    (h : k ∉ m.map Prod.fst) : mapSet m k v = m ++ [(k, v)] := by
  induction m with
  | nil => rfl
  | cons p rest ih =>
      obtain ⟨k2, v2⟩ := p
      rw [List.map_cons, List.mem_cons] at h
      push_neg at h
      obtain ⟨h1, h2⟩ := h
      simp [mapSet, Ne.symm h1, ih h2]

theorem foldl_mapSet_fresh (ids : List String) (acc : List (String × Ticket))
    (hd : ids.Nodup) (hfresh : ∀ id ∈ ids, id ∉ acc.map Prod.fst) :
    ids.foldl
        (fun m id => mapSet m id { id := id, status := .AVAILABLE, reservedAt := none }) acc =
      acc ++ ids.map (fun id => (id, { id := id, status := .AVAILABLE, reservedAt := none })) := by
  induction ids generalizing acc with
  | nil => simp
  | cons a rest ih =>
      obtain ⟨ha, hrest⟩ := List.nodup_cons.mp hd
      have hstep :=
        mapSet_append acc a { id := a, status := TStatus.AVAILABLE, reservedAt := none }
          (hfresh a (List.mem_cons_self a rest))
      have hfresh2 : ∀ id ∈ rest,
          id ∉ (acc ++
            [(a, ({ id := a, status := TStatus.AVAILABLE, reservedAt := none } : Ticket))]).map
              Prod.fst := by
        intro id2 h2
        simp only [List.map_append, List.mem_append]
        rintro (hin | hin)
        · exact hfresh id2 (List.mem_cons_of_mem a h2) hin
        · simp at hin
          subst hin
          exact ha h2
      rw [List.foldl_cons, hstep, ih _ hrest hfresh2]
      simp

theorem initOp_tickets (s : DOState) (payload : List Nat) (mime : String)
    (ids : List String) (h : ids.Nodup) :
    (initOp s payload mime ids).tickets =
      ids.map (fun id => (id, { id := id, status := TStatus.AVAILABLE, reservedAt := none })) := by
  have hf := foldl_mapSet_fresh ids [] h (by intro id hid; simp)
  simpa [initOp] using hf

theorem mapGet_map_none (ids : List String) (k : String) (h : k ∉ ids) :
    mapGet
      (ids.map (fun id => (id, { id := id, status := TStatus.AVAILABLE, reservedAt := none })))
      k = none := by
  induction ids with
  | nil => rfl
  | cons a rest ih =>
      have h1 : a ≠ k := fun he => h (he ▸ List.mem_cons_self a rest)
      simp only [List.map_cons, mapGet, h1, if_false]
      exact ih (fun h2 => h (List.mem_cons_of_mem a h2))

/-! ### Claim-level theorems for the dispenser -/

/-- C2 (amended): along every sequence of init / reserve / ack operations
from the boot state, `currentDownloads` never exceeds
`maxConcurrentDownloads` (the equality with the RESERVED count asserted by
the spec fails; see the counterexample). -/
theorem active_downloads_cap (ops : List Op) :
    (runOps initialState ops).currentDownloads ≤
      (runOps initialState ops).maxConcurrentDownloads :=
  runOps_cap ops initialState (by decide)

/-- C2 counterexample: reserving the same non-expired RESERVED ticket a
second time increments `currentDownloads` again without creating a second
RESERVED ticket, so the counter (2) differs from the RESERVED count (1). -/
theorem active_downloads_count_counterexample :
    (runOps initialState
        [.initialise [7] "image/png" ["t"], .reserve "t" 0, .reserve "t" 1]).currentDownloads
      = 2 ∧
    countReserved
        (runOps initialState
          [.initialise [7] "image/png" ["t"], .reserve "t" 0, .reserve "t" 1]) = 1 := by
  decide

/-- C3 (amended): `/ack` answers Unknown exactly for ids absent from the
ticket map; for any present ticket — whatever its status, including a
never-reserved AVAILABLE one — it answers Burned, rewrites the status to
CLAIMED, and decrements `currentDownloads` floored at zero. -/
theorem ack_spec (s : DOState) (tid : String) :
    ((ackOp s tid).1 = .Unknown ↔ mapGet s.tickets tid = none) ∧
    (∀ t, mapGet s.tickets tid = some t →
      (ackOp s tid).1 = .Burned ∧
      mapGet (ackOp s tid).2.tickets tid = some { t with status := .CLAIMED } ∧
      (ackOp s tid).2.currentDownloads = s.currentDownloads - 1) := by
  constructor
  · constructor
    · intro hu
      cases h1 : mapGet s.tickets tid with
      | none => rfl
      | some t3 =>
          rw [ackOp_burned s tid t3 h1] at hu
          simp at hu
    · intro hn
      rw [ackOp_unknown s tid hn]
  · intro t ht
    rw [ackOp_burned s tid t ht]
    exact ⟨rfl, by simp [mapGet_mapSet_self], rfl⟩

/-- C3 witness: `ack_spec` applied to a freshly initialised single-ticket
session whose ticket is AVAILABLE and was never reserved. -/
theorem ack_spec_witness :
    ((ackOp (initOp initialState [7] "image/png" ["t"]) "t").1 = AckResult.Unknown ↔
      mapGet (initOp initialState [7] "image/png" ["t"]).tickets "t" = none) ∧
    ((ackOp (initOp initialState [7] "image/png" ["t"]) "t").1 = AckResult.Burned ∧
      mapGet (ackOp (initOp initialState [7] "image/png" ["t"]) "t").2.tickets "t" =
        some { id := "t", status := TStatus.CLAIMED, reservedAt := none } ∧
      (ackOp (initOp initialState [7] "image/png" ["t"]) "t").2.currentDownloads =
        (initOp initialState [7] "image/png" ["t"]).currentDownloads - 1) :=
  ⟨(ack_spec (initOp initialState [7] "image/png" ["t"]) "t").1,
    (ack_spec (initOp initialState [7] "image/png" ["t"]) "t").2
      { id := "t", status := TStatus.AVAILABLE, reservedAt := none } (by decide)⟩

/-- C3 counterexample: acknowledging a never-reserved AVAILABLE ticket
does not return Unknown as the spec demands — it returns Burned and
transitions the ticket to CLAIMED. -/
theorem ack_available_counterexample :
    (ackOp (initOp initialState [7] "image/png" ["t"]) "t").1 ≠ AckResult.Unknown ∧
    (ackOp (initOp initialState [7] "image/png" ["t"]) "t").1 = AckResult.Burned ∧
    mapGet (ackOp (initOp initialState [7] "image/png" ["t"]) "t").2.tickets "t" =
      some { id := "t", status := TStatus.CLAIMED, reservedAt := none } := by
  decide

/-- C4 (amended): a QueueFull (waiting-room) response leaves
`currentDownloads`, the cap, the file, the mime type, every other ticket,
and the requested ticket's id and `reservedAt` unchanged; the requested
ticket's status is also unchanged unless it was RESERVED and expired, in
which case the same call has already reset it to AVAILABLE. -/
theorem queueFull_frame (s : DOState) (tid : String) (now : Nat)
    (h : (reserveOp s tid now).1 = .QueueFull) :
    (reserveOp s tid now).2.currentDownloads = s.currentDownloads ∧
    (reserveOp s tid now).2.maxConcurrentDownloads = s.maxConcurrentDownloads ∧
    (reserveOp s tid now).2.file = s.file ∧
    (reserveOp s tid now).2.mimeType = s.mimeType ∧
    (∀ k, k ≠ tid → mapGet (reserveOp s tid now).2.tickets k = mapGet s.tickets k) ∧
    (∀ t, mapGet s.tickets tid = some t →
      ∃ u, mapGet (reserveOp s tid now).2.tickets tid = some u ∧
        u.id = t.id ∧ u.reservedAt = t.reservedAt ∧
        (u.status = t.status ∨
          (t.status = .RESERVED ∧ now - t.reservedAt.getD 0 > reservationTimeoutMs ∧
            u.status = .AVAILABLE))) := by
  by_cases h0 : tid = ""
  · subst h0
    rw [reserveOp_invalid_empty] at h
    simp at h
  · cases h1 : mapGet s.tickets tid with
    | none =>
        rw [reserveOp_invalid_unknown s tid now h0 h1] at h
        simp at h
    | some t0 =>
        by_cases hcl : t0.status = TStatus.CLAIMED
        · rw [reserveOp_already_claimed s tid now t0 h0 h1 hcl] at h
          simp at h
        · by_cases hq : s.currentDownloads ≥ s.maxConcurrentDownloads
          · rw [reserveOp_queueFull_case s tid now t0 h0 h1 hcl hq]
            refine ⟨rfl, rfl, rfl, rfl, ?_, ?_⟩
            · intro k hk
              exact mapGet_mapSet_ne s.tickets tid k _ hk
            · intro t ht
              obtain rfl : t0 = t := Option.some.inj ht
              by_cases hexp :
                  t0.status = TStatus.RESERVED ∧
                    now - t0.reservedAt.getD 0 > reservationTimeoutMs
              · refine ⟨{ t0 with status := .AVAILABLE }, ?_, rfl, rfl,
                  Or.inr ⟨hexp.1, hexp.2, rfl⟩⟩
                simp [hexp, mapGet_mapSet_self]
              · refine ⟨t0, ?_, rfl, rfl, Or.inl rfl⟩
                simp [hexp, mapGet_mapSet_self]
          · rw [reserveOp_granted_case s tid now t0 h0 h1 hcl (Nat.lt_of_not_ge hq)] at h
            simp at h

/-- C4 witness: `queueFull_frame` applied to the full-gate state, whose
RESERVED ticket is expired at time 400000. -/
theorem queueFull_frame_witness :
    (reserveOp fullGateState "a" 400000).2.currentDownloads =
      fullGateState.currentDownloads ∧
    (∃ u, mapGet (reserveOp fullGateState "a" 400000).2.tickets "a" = some u ∧
      u.id = "a" ∧ u.reservedAt = some 49 ∧
      (u.status = TStatus.RESERVED ∨
        (TStatus.RESERVED = TStatus.RESERVED ∧ 400000 - 49 > reservationTimeoutMs ∧
          u.status = TStatus.AVAILABLE))) := by
  have h := queueFull_frame fullGateState "a" 400000 (by decide)
  exact ⟨h.1, h.2.2.2.2.2
    { id := "a", status := TStatus.RESERVED, reservedAt := some 49 } (by decide)⟩

/-- C4 counterexample: a reserve call that answers QueueFull does not
always leave the state untouched — on the full-gate state the expired
RESERVED ticket has been reset to AVAILABLE by the very call that returned
the waiting room. -/
theorem queueFull_mutation_counterexample :
    (reserveOp fullGateState "a" 400000).1 = ReserveResult.QueueFull ∧
    mapGet fullGateState.tickets "a" =
      some { id := "a", status := TStatus.RESERVED, reservedAt := some 49 } ∧
    mapGet (reserveOp fullGateState "a" 400000).2.tickets "a" =
      some { id := "a", status := TStatus.AVAILABLE, reservedAt := some 49 } := by
  decide

/-- C6: a CLAIMED ticket is terminal under reserve and ack operations —
every reserve of it answers AlreadyClaimed, and after any sequence of
reserve / ack operations its status is still CLAIMED. -/
theorem claimed_is_terminal (s : DOState) (tid : String) (t : Ticket)
    (htid : tid ≠ "") (hget : mapGet s.tickets tid = some t)
    (hc : t.status = .CLAIMED) :
    (∀ now, (reserveOp s tid now).1 = .AlreadyClaimed) ∧
    (∀ ops : List Op, (∀ op ∈ ops, op.isInitOp = false) →
      ∃ u, mapGet (runOps s ops).tickets tid = some u ∧ u.status = .CLAIMED) :=
  ⟨fun now => by rw [reserveOp_already_claimed s tid now t htid hget hc],
    fun ops hops => runOps_claimed ops s tid t hget hc hops⟩

/-- C6 witness: `claimed_is_terminal` on the reserved-then-acked
single-ticket session, exercised with a later reserve and a repeated ack. -/
theorem claimed_is_terminal_witness :
    (reserveOp claimedState "t" 999999).1 = ReserveResult.AlreadyClaimed ∧
    (∃ u, mapGet (runOps claimedState [Op.reserve "t" 5, Op.ack "t"]).tickets "t" =
        some u ∧ u.status = TStatus.CLAIMED) := by
  have h := claimed_is_terminal claimedState "t"
    { id := "t", status := TStatus.CLAIMED, reservedAt := some 0 }
    (by decide) (by decide) rfl
  exact ⟨h.1 999999, h.2 [Op.reserve "t" 5, Op.ack "t"] (by decide)⟩

/-- C7: a reserve touching a RESERVED ticket whose reservation is older
than the 5-minute timeout resets it; if the gate has room the same call
grants it again with `reservedAt = now`, and if the gate is full the call
returns QueueFull with the ticket left AVAILABLE (evidence that the reset
happened before the gate check). -/
theorem timeout_recovery (s : DOState) (tid : String) (t : Ticket) (now : Nat)
    (htid : tid ≠ "") (hget : mapGet s.tickets tid = some t)
    (hres : t.status = .RESERVED)
    (hexp : now - t.reservedAt.getD 0 > reservationTimeoutMs) :
    (s.currentDownloads < s.maxConcurrentDownloads →
      (reserveOp s tid now).1 = .Granted ∧
      mapGet (reserveOp s tid now).2.tickets tid =
        some { id := t.id, status := .RESERVED, reservedAt := some now } ∧
      (reserveOp s tid now).2.currentDownloads = s.currentDownloads + 1) ∧
    (s.currentDownloads ≥ s.maxConcurrentDownloads →
      (reserveOp s tid now).1 = .QueueFull ∧
      mapGet (reserveOp s tid now).2.tickets tid =
        some { t with status := .AVAILABLE }) := by
  have hncl : t.status ≠ .CLAIMED := by
    rw [hres]
    intro hh
    cases hh
  constructor
  · intro hlt
    rw [reserveOp_granted_case s tid now t htid hget hncl hlt]
    exact ⟨rfl, by simp [mapGet_mapSet_self], rfl⟩
  · intro hge
    rw [reserveOp_queueFull_case s tid now t htid hget hncl hge]
    refine ⟨rfl, ?_⟩
    simp [hres, hexp, mapGet_mapSet_self]

/-- C7 witness: `timeout_recovery` on a session whose ticket was reserved
at time 0 and touched again at time 300001, with the gate not full. -/
theorem timeout_recovery_witness :
    (reserveOp expiredState "t" 300001).1 = ReserveResult.Granted ∧
    mapGet (reserveOp expiredState "t" 300001).2.tickets "t" =
      some { id := "t", status := TStatus.RESERVED, reservedAt := some 300001 } ∧
    (reserveOp expiredState "t" 300001).2.currentDownloads =
      expiredState.currentDownloads + 1 :=
  (timeout_recovery expiredState "t"
      { id := "t", status := TStatus.RESERVED, reservedAt := some 0 } 300001
      (by decide) (by decide) rfl (by decide)).1 (by decide)

/-- C8 (amended): after re-initialisation with distinct fresh ids the
session holds exactly one AVAILABLE ticket per id in order; the operator
connect batch is the first `min(count, 20)` of them — exactly the new
ticket set whenever `count ≤ 20` — and reserving any id not among the
fresh ones (in particular any old-session id) answers InvalidTicket. -/
theorem reinit_discards_state (s : DOState) (payload : List Nat) (mime : String)
    (ids : List String) (hnodup : ids.Nodup) :
    (initOp s payload mime ids).tickets.length = ids.length ∧
    (initOp s payload mime ids).tickets.map Prod.fst = ids ∧
    (∀ p ∈ (initOp s payload mime ids).tickets, p.2.status = TStatus.AVAILABLE) ∧
    sendBatchToSeller (initOp s payload mime ids) = ids.take 20 ∧
    (ids.length ≤ 20 → sendBatchToSeller (initOp s payload mime ids) = ids) ∧
    (∀ oldId, oldId ∉ ids → ∀ now,
      (reserveOp (initOp s payload mime ids) oldId now).1 = .InvalidTicket) := by
  have htk := initOp_tickets s payload mime ids hnodup
  have hbatch : sendBatchToSeller (initOp s payload mime ids) = ids.take 20 := by
    simp only [sendBatchToSeller, htk, List.map_map, List.filter_map]
    simp [Function.comp_def]
  refine ⟨?_, ?_, ?_, hbatch, ?_, ?_⟩
  · rw [htk]
    simp
  · rw [htk]
    simp [Function.comp_def]
  · rw [htk]
    intro p hp
    simp only [List.mem_map] at hp
    obtain ⟨id, _, rfl⟩ := hp
    rfl
  · intro hlen
    rw [hbatch]
    exact List.take_of_length_le hlen
  · intro oldId hold now
    by_cases h0 : oldId = ""
    · subst h0
      rw [reserveOp_invalid_empty]
    · have hnone : mapGet (initOp s payload mime ids).tickets oldId = none := by
        rw [htk]
        exact mapGet_map_none ids oldId hold
      rw [reserveOp_invalid_unknown _ oldId now h0 hnone]

/-- C8 witness: `reinit_discards_state` on a re-init of a session holding
one old ticket, with two fresh ids. -/
theorem reinit_discards_state_witness :
    (initOp stateWithOld [7] "text/plain" ["x", "y"]).tickets.length = 2 ∧
    sendBatchToSeller (initOp stateWithOld [7] "text/plain" ["x", "y"]) = ["x", "y"] ∧
    (reserveOp (initOp stateWithOld [7] "text/plain" ["x", "y"]) "old" 5).1 =
      ReserveResult.InvalidTicket := by
  have h := reinit_discards_state stateWithOld [7] "text/plain" ["x", "y"] (by decide)
  exact ⟨h.1, h.2.2.2.2.1 (by decide), h.2.2.2.2.2 "old" (by decide) 5⟩

/-- C8 counterexample: with 21 fresh tickets the operator connect batch is
`slice(0, 20)` of them — 20 ids — and therefore is not exactly the new
ticket set, contrary to the unconditional reading of the claim. -/
theorem reinit_batch_counterexample :
    (initOp initialState [7] "image/png" sampleIds21).tickets.length = 21 ∧
    (sendBatchToSeller (initOp initialState [7] "image/png" sampleIds21)).length = 20 ∧
    sendBatchToSeller (initOp initialState [7] "image/png" sampleIds21) ≠
      (initOp initialState [7] "image/png" sampleIds21).tickets.map Prod.fst := by
  decide

/-- C10 (amended): `/init` replaces the payload, the mime type and the
ticket map but leaves `currentDownloads` (and the cap) at their prior
values — it is never reset to zero (the claim's further assertion that no
operation on the new tickets can drive the counter below that carried-over
offset fails; see the counterexample). -/
theorem init_preserves_counter (s : DOState) (payload : List Nat) (mime : String)
    (ids : List String) :
    (initOp s payload mime ids).file = some payload ∧
    (initOp s payload mime ids).mimeType = mime ∧
    (initOp s payload mime ids).currentDownloads = s.currentDownloads ∧
    (initOp s payload mime ids).maxConcurrentDownloads = s.maxConcurrentDownloads :=
  ⟨rfl, rfl, rfl, rfl⟩

/-- C10 counterexample: re-initialising while one old ticket is RESERVED
starts the new session with `currentDownloads = 1`, but a bare ack of a
new, never-reserved ticket decrements the counter to 0 — below the
carried-over offset. -/
theorem reinit_offset_counterexample :
    countReserved
        (runOps initialState [.initialise [7] "image/png" ["a"], .reserve "a" 0]) = 1 ∧
    (runOps initialState
        [.initialise [7] "image/png" ["a"], .reserve "a" 0,
          .initialise [8] "image/png" ["b"]]).currentDownloads = 1 ∧
    (runOps initialState
        [.initialise [7] "image/png" ["a"], .reserve "a" 0,
          .initialise [8] "image/png" ["b"], .ack "b"]).currentDownloads = 0 := by
  decide

/-- `/claim` never changes the stored file or mime type. -/
theorem reserveOp_file_mime (s : DOState) (tid : String) (now : Nat) :
    (reserveOp s tid now).2.file = s.file ∧
    (reserveOp s tid now).2.mimeType = s.mimeType := by
  unfold reserveOp
  split
  · exact ⟨rfl, rfl⟩
  · split
    · exact ⟨rfl, rfl⟩
    · split
      · exact ⟨rfl, rfl⟩
      · dsimp only
        split
        · exact ⟨rfl, rfl⟩
        · exact ⟨rfl, rfl⟩

end Dispenser

namespace SingleMode

/-! ### Store lemmas for the single-ticket mode -/

theorem storeGet_storeDelete_self (m : TicketStore) (k : String) :
    storeGet (storeDelete m k) k = none := by
  induction m with
  | nil => rfl
  | cons p rest ih =>
      obtain ⟨k2, v⟩ := p
      by_cases h : k2 = k
      · simp [storeDelete, h, ih]
      · simp [storeDelete, storeGet, h, ih]

theorem storeGet_storeDelete_none (m : TicketStore) (k k2 : String)
    (h : storeGet m k = none) : storeGet (storeDelete m k2) k = none := by
  induction m with
  | nil => rfl
  | cons p rest ih =>
      obtain ⟨k3, v⟩ := p
      simp only [storeGet] at h
      by_cases h3 : k3 = k
      · simp [h3] at h
      · have hr : storeGet rest k = none := by simpa [h3] using h
        by_cases h32 : k3 = k2
        · simp [storeDelete, h32, ih hr]
        · simp [storeDelete, storeGet, h32, h3, ih hr]

/-! ### Case characterizations of `claimTicket` -/

theorem claimTicket_missing (s : TicketStore) (req : ClaimRequest) (cr : SubtleCrypto)
    (h : (falsyTicketId req.ticket_id || falsyPublicKey req.public_key) = true) :
    claimTicket s req cr = (.missingParams, s) := by
  simp [claimTicket, h]

theorem claimTicket_notFound (s : TicketStore) (req : ClaimRequest) (cr : SubtleCrypto)
    (h : (falsyTicketId req.ticket_id || falsyPublicKey req.public_key) = false)
    (h2 : storeGet s (req.ticket_id.getD "") = none) :
    claimTicket s req cr = (.notFound, s) := by
  simp [claimTicket, h, h2]

theorem claimTicket_success (s : TicketStore) (req : ClaimRequest) (cr : SubtleCrypto)
    (asset : TicketAsset) (pub aes : String) (ef wk : List Nat)
    (hfal : (falsyTicketId req.ticket_id || falsyPublicKey req.public_key) = false)
    (hs : storeGet s (req.ticket_id.getD "") = some asset)
    (hik : cr.importKey (req.public_key.getD "") = .ok pub)
    (hgk : cr.generateKey = .ok aes)
    (henc : cr.encrypt aes cr.randomIv asset.content = .ok ef)
    (hwk : cr.wrapKey aes pub = .ok wk) :
    claimTicket s req cr =
      (.bundle ef wk cr.randomIv asset.mimeType, storeDelete s (req.ticket_id.getD "")) := by
  simp [claimTicket, hfal, hs, hik, hgk, henc, hwk]

/-- The store after a claim is either untouched (and the response is not a
bundle), or the response is a bundle and the requested id was deleted. -/
theorem claimTicket_store_cases (s : TicketStore) (req : ClaimRequest) (cr : SubtleCrypto) :
    ((claimTicket s req cr).1.isBundle = false ∧ (claimTicket s req cr).2 = s) ∨
    ((claimTicket s req cr).1.isBundle = true ∧
      (claimTicket s req cr).2 = storeDelete s (req.ticket_id.getD "")) := by
  unfold claimTicket
  split
  · exact Or.inl ⟨rfl, rfl⟩
  · dsimp only
    split
    · exact Or.inl ⟨rfl, rfl⟩
    · split
      · exact Or.inl ⟨rfl, rfl⟩
      · split
        · exact Or.inl ⟨rfl, rfl⟩
        · split
          · exact Or.inl ⟨rfl, rfl⟩
          · split
            · exact Or.inl ⟨rfl, rfl⟩
            · exact Or.inr ⟨rfl, rfl⟩

theorem claimTicket_not_missing (s : TicketStore) (req : ClaimRequest) (cr : SubtleCrypto)
    (h : (claimTicket s req cr).1 ≠ .missingParams) :
    (falsyTicketId req.ticket_id || falsyPublicKey req.public_key) = false := by
  cases hc : (falsyTicketId req.ticket_id || falsyPublicKey req.public_key) with
  | false => rfl
  | true =>
      exact absurd (by rw [claimTicket_missing s req cr hc]) h

theorem claim_preserves_absent (s : TicketStore) (req : ClaimRequest) (cr : SubtleCrypto)
    (tid : String) (h : storeGet s tid = none) :
    storeGet (claimTicket s req cr).2 tid = none := by
  rcases claimTicket_store_cases s req cr with ⟨_, h2⟩ | ⟨_, h2⟩
  · rw [h2]
    exact h
  · rw [h2]
    exact storeGet_storeDelete_none s tid _ h

theorem runClaims_preserves_absent (calls : List ClaimCall) (s : TicketStore) (tid : String)
    (h : storeGet s tid = none) : storeGet (runClaims s calls) tid = none := by
  induction calls generalizing s with
  | nil => exact h
  | cons c rest ih => exact ih _ (claim_preserves_absent s c.req c.cr tid h)

theorem bundle_removes (s : TicketStore) (req : ClaimRequest) (cr : SubtleCrypto)
    (tid : String) (hreq : req.ticket_id = some tid)
    (hb : (claimTicket s req cr).1.isBundle = true) :
    storeGet (claimTicket s req cr).2 tid = none := by
  rcases claimTicket_store_cases s req cr with ⟨h1, _⟩ | ⟨_, h2⟩
  · rw [hb] at h1
    cases h1
  · rw [h2, hreq]
    exact storeGet_storeDelete_self s tid

theorem claimTicket_notFound_of_absent (s : TicketStore) (req : ClaimRequest)
    (cr : SubtleCrypto) (tid : String)
    (hreq : req.ticket_id = some tid) (hk : falsyPublicKey req.public_key = false)
    (hne : tid.isEmpty = false) (h : storeGet s tid = none) :
    (claimTicket s req cr).1 = .notFound := by
  have hfal : (falsyTicketId req.ticket_id || falsyPublicKey req.public_key) = false := by
    simp [falsyTicketId, hreq, hne, hk]
  have h2 : storeGet s (req.ticket_id.getD "") = none := by
    rw [hreq]
    exact h
  rw [claimTicket_notFound s req cr hfal h2]

/-! ### Claim-level theorems for the single-ticket mode -/

/-- C1: in any sequence of claim calls, once a call for `tid` has returned
a successful HandoffBundle, the id is gone from the store and every later
well-formed claim call for `tid` returns NotFound — so at most one claim
of `tid` ever succeeds. -/
theorem at_most_once_delivery (s0 : TicketStore) (pre mid : List ClaimCall)
    (c d : ClaimCall) (tid : String)
    (hc : c.req.ticket_id = some tid) (hd : d.req.ticket_id = some tid)
    (hdk : falsyPublicKey d.req.public_key = false)
    (hb : (claimTicket (runClaims s0 pre) c.req c.cr).1.isBundle = true) :
    storeGet (claimTicket (runClaims s0 pre) c.req c.cr).2 tid = none ∧
    (claimTicket (runClaims (claimTicket (runClaims s0 pre) c.req c.cr).2 mid)
        d.req d.cr).1 = .notFound := by
  have hrm := bundle_removes (runClaims s0 pre) c.req c.cr tid hc hb
  have hmiss : (claimTicket (runClaims s0 pre) c.req c.cr).1 ≠ .missingParams := by
    intro he
    rw [he] at hb
    cases hb
  have hfal := claimTicket_not_missing (runClaims s0 pre) c.req c.cr hmiss
  have hft : falsyTicketId c.req.ticket_id = false := by
    cases hq : falsyTicketId c.req.ticket_id
    · rfl
    · rw [hq] at hfal
      simp at hfal
  have htide : tid.isEmpty = false := by
    simpa [falsyTicketId, hc] using hft
  refine ⟨hrm, ?_⟩
  have habs := runClaims_preserves_absent mid _ tid hrm
  exact claimTicket_notFound_of_absent _ d.req d.cr tid hd hdk htide habs

/-- C1 witness: `at_most_once_delivery` on the one-ticket store with two
back-to-back successful-oracle claims of the same ticket. -/
theorem at_most_once_delivery_witness :
    storeGet (claimTicket (runClaims sampleStore []) sampleReq okCrypto).2 "t" = none ∧
    (claimTicket (runClaims (claimTicket (runClaims sampleStore []) sampleReq okCrypto).2 [])
        sampleReq okCrypto).1 = ClaimResponse.notFound :=
  at_most_once_delivery sampleStore [] [] ⟨sampleReq, okCrypto⟩ ⟨sampleReq, okCrypto⟩ "t"
    rfl rfl rfl (by decide)

/-- C5: when the crypto pipeline throws (key import or any cipher step),
the claim reports the failure and leaves the store byte-for-byte
unchanged, and a subsequent claim of the same ticket with a fully
successful oracle returns the HandoffBundle and only then burns the
ticket. -/
theorem crypto_error_preserves_store (s : TicketStore) (req req2 : ClaimRequest)
    (cr cr2 : SubtleCrypto) (tid : String) (asset : TicketAsset) (e : String)
    (pub aes : String) (ef wk : List Nat)
    (hreq : req.ticket_id = some tid) (hreq2 : req2.ticket_id = some tid)
    (hk2 : falsyPublicKey req2.public_key = false)
    (hs : storeGet s tid = some asset)
    (hfail : (claimTicket s req cr).1 = .encryptionFailed e)
    (hik : cr2.importKey (req2.public_key.getD "") = .ok pub)
    (hgk : cr2.generateKey = .ok aes)
    (henc : cr2.encrypt aes cr2.randomIv asset.content = .ok ef)
    (hwk : cr2.wrapKey aes pub = .ok wk) :
    (claimTicket s req cr).2 = s ∧
    claimTicket s req2 cr2 =
      (.bundle ef wk cr2.randomIv asset.mimeType, storeDelete s tid) := by
  have hframe : (claimTicket s req cr).2 = s := by
    rcases claimTicket_store_cases s req cr with ⟨_, h2⟩ | ⟨h1, _⟩
    · exact h2
    · rw [hfail] at h1
      cases h1
  refine ⟨hframe, ?_⟩
  have hmiss : (claimTicket s req cr).1 ≠ .missingParams := by
    rw [hfail]
    simp
  have hfal := claimTicket_not_missing s req cr hmiss
  have hft : falsyTicketId req.ticket_id = false := by
    cases hq : falsyTicketId req.ticket_id
    · rfl
    · rw [hq] at hfal
      simp at hfal
  have htide : tid.isEmpty = false := by
    simpa [falsyTicketId, hreq] using hft
  have hfal2 : (falsyTicketId req2.ticket_id || falsyPublicKey req2.public_key) = false := by
    simp [falsyTicketId, hreq2, htide, hk2]
  have hs2 : storeGet s (req2.ticket_id.getD "") = some asset := by
    rw [hreq2]
    exact hs
  have hsucc := claimTicket_success s req2 cr2 asset pub aes ef wk hfal2 hs2 hik hgk henc hwk
  rw [hsucc, hreq2]
  rfl

/-- C5 witness: `crypto_error_preserves_store` on the one-ticket store,
with a key-import failure followed by a fully successful oracle. -/
theorem crypto_error_preserves_store_witness :
    (claimTicket sampleStore sampleReq keyErrorCrypto).2 = sampleStore ∧
    claimTicket sampleStore sampleReq okCrypto =
      (ClaimResponse.bundle [1, 2, 3] [9] (List.replicate 12 0) "text/plain",
        storeDelete sampleStore "t") :=
  crypto_error_preserves_store sampleStore sampleReq sampleReq keyErrorCrypto okCrypto "t"
    { content := [1, 2, 3], mimeType := "text/plain" } "DataError" "pub" "aes"
    [1, 2, 3] [9] rfl rfl rfl (by decide) (by decide) rfl rfl rfl rfl

end SingleMode

namespace MassGateway

open Dispenser

/-- C9: on a granted mass-mode claim the gateway returns the AEAD
encryption of the session payload under the key `sha256(utf8(ticket id))`
with the supplied fresh 12-byte IV, returns that IV out-of-band together
with the session mime type, and the receiver-side decryption with the same
derived key and IV recovers the payload (the hash and AEAD are abstract
primitives; `hround` is the AEAD decrypt-of-encrypt law). -/
theorem mass_claim_roundtrip (sha256 : List Nat → List Nat) (aead : AEAD)
    (iv : List Nat) (s : DOState) (tid : String) (now : Nat) (payload : List Nat)
    (hround : ∀ k v m, aead.decrypt k v (aead.encrypt k v m) = some m)
    (hlen : iv.length = 12)
    (hfile : s.file = some payload)
    (hgrant : (reserveOp s tid now).1 = .Granted) :
    ∃ r, (massClaimRoute sha256 aead iv s tid now).1 = .encrypted r ∧
      r.body = aead.encrypt (sha256 (utf8Bytes tid)) iv payload ∧
      r.xIV = iv ∧ r.xIV.length = 12 ∧
      r.contentType = s.mimeType ∧
      handleMassClaimDecrypt sha256 aead tid r = some payload := by
  have hfm := Dispenser.reserveOp_file_mime s tid now
  have hpair : reserveOp s tid now = (.Granted, (reserveOp s tid now).2) := by
    rw [← hgrant]
  unfold massClaimRoute
  rw [hpair]
  dsimp only
  refine ⟨_, rfl, ?_, rfl, hlen, hfm.2, ?_⟩
  · rw [hfm.1, hfile]
    rfl
  · unfold handleMassClaimDecrypt
    dsimp only
    rw [hfm.1, hfile]
    exact hround _ _ _

/-- C9 witness: `mass_claim_roundtrip` at a freshly initialised one-ticket
session with the identity AEAD and a constant 32-byte digest. -/
theorem mass_claim_roundtrip_witness :
    ∃ r, (massClaimRoute constHash idAead sampleIv
        (initOp initialState [7] "text/plain" ["t"]) "t" 0).1 = .encrypted r ∧
      r.body = idAead.encrypt (constHash (utf8Bytes "t")) sampleIv [7] ∧
      r.xIV = sampleIv ∧ r.xIV.length = 12 ∧
      r.contentType = (initOp initialState [7] "text/plain" ["t"]).mimeType ∧
      handleMassClaimDecrypt constHash idAead "t" r = some [7] :=
  mass_claim_roundtrip constHash idAead sampleIv
    (initOp initialState [7] "text/plain" ["t"]) "t" 0 [7]
    (fun _ _ _ => rfl) (by decide) rfl (by decide)

end MassGateway

end SecureFileFlow
